import Mathlib

/-!
Verification development for the TCX lap-analysis script tcxaet.py.

Modelling conventions:
* Python numbers (ints, floats, pandas scalars, timestamps in seconds) are
  modelled as exact rationals; Python int() truncation is explicit.
* The metric divisions in parse_laps are numpy-scalar operations (the
  operands come from pandas Series and numpy ints): a zero denominator
  never raises, it yields inf, -inf or nan with a RuntimeWarning. These
  results are modelled by the NpF type below. The only plain-Python
  division in the per-lap loop is 1 / secs_per_meter inside
  min_miles2meter_sec, which can raise ZeroDivisionError, and only for a
  zero treadmill pace - a call the truthiness guard makes unreachable.
* Python exceptions are modelled with Except PyErr. The realized fatal
  paths in the loop are IndexError on an empty series,
  ValueError / OverflowError from timedelta(minutes = v) when the pace
  value v is nan or infinite, and ValueError from truncate or label
  slicing on an unsorted index. None of them is caught anywhere.
* Signed float zeros are collapsed to the rational 0: the scripts only
  observe them through an == 0 comparison, where -0.0 equals 0.
* A pandas DataFrame indexed by timestamp with Bpm and Distance columns is
  modelled as a list of Sample records in index order.
* The external geolocation collaborator (timezonefinder + pytz) is modelled
  as an arbitrary function from coordinates to an instant-dependent UTC
  offset, so DST-style offsets are representable.
-/

/-- Python exception kinds raised by the script. -/
inductive PyErr where
  | zeroDiv
  | indexError
  | valueError
  | malformedLap
  | keyError
  | overflowError
deriving DecidableEq

/-- A numpy float64 value: finite (exact rational), positive or negative
infinity, or nan. -/
inductive NpF where
  | fin (q : ℚ)
  | pinf
  | ninf
  | nan
deriving DecidableEq

/-- Numpy scalar division: a zero denominator yields a signed infinity
for a nonzero numerator and nan for 0/0, with a RuntimeWarning; it never
raises. Signed zeros are collapsed, so x / inf is the rational 0. -/
def npDiv : NpF → NpF → NpF
  | .nan, _ => .nan
  | _, .nan => .nan
  | .fin x, .fin y =>
    if y = 0 then (if 0 < x then .pinf else if x < 0 then .ninf else .nan)
    else .fin (x / y)
  | .fin _, .pinf => .fin 0
  | .fin _, .ninf => .fin 0
  | .pinf, .fin y => if y < 0 then .ninf else .pinf
  | .ninf, .fin y => if y < 0 then .pinf else .ninf
  | .pinf, .pinf => .nan
  | .pinf, .ninf => .nan
  | .ninf, .pinf => .nan
  | .ninf, .ninf => .nan

/-- Numpy scalar subtraction on the values the drift computations feed
it. -/
def npSub : NpF → NpF → NpF
  | .nan, _ => .nan
  | _, .nan => .nan
  | .fin x, .fin y => .fin (x - y)
  | .pinf, .pinf => .nan
  | .pinf, _ => .pinf
  | .ninf, .ninf => .nan
  | .ninf, _ => .ninf
  | .fin _, .pinf => .ninf
  | .fin _, .ninf => .pinf

/-- Constant METERS2MILES = 1609.34 from the script. -/
def METERS2MILES : ℚ := 160934 / 100

/-- Constant MIN2SECS = 60 from the script. -/
def MIN2SECS : ℚ := 60

/-- Floor of a rational, written so that it evaluates by unfolding. -/
def ratFloor (q : ℚ) : ℤ := q.num / (q.den : ℤ)

/-- Python round() to an integer: round half to even, on exact rationals. -/
def pyRound (q : ℚ) : ℤ :=
  let f := ratFloor q
  if q - f < 1 / 2 then f
  else if (1 : ℚ) / 2 < q - f then f + 1
  else if f % 2 = 0 then f else f + 1

/-- Python str(n).zfill(2) for the integers the formatter produces. -/
def zfill2 (n : ℤ) : String :=
  if 0 ≤ n ∧ n < 10 then "0" ++ toString n else toString n

/-- Python int() on a number: truncation toward zero. -/
def pyInt (q : ℚ) : ℤ := q.num.tdiv q.den

/-- Microsecond count of Python timedelta(minutes = val): the constructor
normalises to microsecond resolution, rounding half to even. -/
def tdUs (val : ℚ) : ℤ := pyRound (val * 60 * 1000000)

/-- Minutes field of str(timedelta(minutes = val)): str always renders a
two-digit minutes field between the last two colons. -/
def tdMM (val : ℚ) : ℤ := tdUs val / 1000000 % 3600 / 60

/-- Value of the seconds field of str(timedelta(minutes = val)), seconds
plus the microsecond fraction, which the script feeds to round(). -/
def tdSecR (val : ℚ) : ℚ :=
  ((tdUs val / 1000000 % 60 : ℤ) : ℚ) + ((tdUs val % 1000000 : ℤ) : ℚ) / 1000000

/-- mil_min_val_to_mil_min_string from the script: zero maps to 00:00,
otherwise str(timedelta(minutes = val)) is split on colons, the two-digit
minutes field is kept as is, and the seconds-with-fraction field is passed
through round() and zfill(2). -/
def mil_min_val_to_mil_min_string (val : ℚ) : String :=
  if val = 0 then "00:00"
  else zfill2 (tdMM val) ++ ":" ++ zfill2 (pyRound (tdSecR val))

/-- meter_sec_2_min_miles from the script: m/s speed to a decimal
minutes-per-mile pace, with an explicit guard returning 0 at zero speed. -/
def meter_sec_2_min_miles (n : ℚ) : ℚ :=
  let miles_a_minute := n / METERS2MILES * 60
  if miles_a_minute = 0 then 0 else 1 / miles_a_minute

/-- meter_sec_2_min_miles on a numpy scalar input, as it behaves when
parse_laps feeds it a computed speed: a nan speed propagates to a nan
pace value, an infinite speed makes miles_a_minute infinite - which the
== 0 guard does not catch - and 1 / infinity is zero, so the pace value
collapses to 0. -/
def meter_sec_2_min_milesNp : NpF → NpF
  | .fin q => .fin (meter_sec_2_min_miles q)
  | .pinf => .fin 0
  | .ninf => .fin 0
  | .nan => .nan

/-- The pace-string computation of parse_laps,
mil_min_val_to_mil_min_string(meter_sec_2_min_miles(speed)), on a numpy
speed: timedelta(minutes = v) raises ValueError for v = nan and
OverflowError for an infinite v, and neither exception is caught
anywhere, so a nan pace value aborts the whole run. -/
def paceStringE (sp : NpF) : Except PyErr String :=
  match meter_sec_2_min_milesNp sp with
  | .fin v => .ok (mil_min_val_to_mil_min_string v)
  | .nan => .error .valueError
  | .pinf => .error .overflowError
  | .ninf => .error .overflowError

/-- min_miles2meter_sec from the script: pace to m/s speed. This is the
one plain-Python division of the loop: 1 / secs_per_meter raises
ZeroDivisionError when the pace is zero, but every call site guards it
behind the truthiness of the treadmill option, so the zero-pace case is
unreachable. -/
def min_miles2meter_sec (n : ℚ) : Except PyErr NpF :=
  if n * 60 / METERS2MILES = 0 then .error .zeroDiv
  else .ok (.fin (1 / (n * 60 / METERS2MILES)))

/-- A Python datetime value: wall-clock reading together with its UTC
offset, both in seconds. A plain UTC instant carries offset 0. -/
structure AwareDT where
  wall : ℚ
  off : ℚ
deriving DecidableEq

/-- Subtraction of two Python aware datetimes compares absolute instants:
each operand contributes wall-clock reading minus UTC offset. -/
def awareSub (a b : AwareDT) : ℚ :=
  (a.wall - a.off) - (b.wall - b.off)

/-- UTC_datetime2local from the script: localize the implicit-UTC instant
into the timezone found for the lap coordinates; tz gives the UTC offset
of that zone at each instant. -/
def UTC_datetime2local (dt : ℚ) (tz : ℚ → ℚ) : AwareDT :=
  ⟨dt + tz dt, tz dt⟩

/-- One trackpoint row of the time-indexed series built in parse_tcx_lap:
index value (timestamp in seconds), Bpm column, Distance column (both
stored as Python ints by the extraction code). -/
structure Sample where
  time : ℚ
  bpm : ℤ
  dist : ℤ
deriving DecidableEq

/-- The per-lap dictionary built by parse_tcx_lap. -/
structure Lap where
  filename : String
  coords : Option (ℚ × ℚ)
  totalTimeSeconds : ℤ
  distanceMeters : List ℚ
  samples : List Sample
deriving DecidableEq

/-- The command-line-derived configuration the pipeline reads, plus the
external geolocation collaborator tzDB mapping coordinates to an
instant-dependent UTC offset. -/
structure Config where
  details : Bool
  columns : Bool
  localTime : Bool
  treadmill : Option ℚ
  tzDB : ℚ × ℚ → ℚ → ℚ

/-- Python truthiness of args.treadmill: None and 0.0 are falsy. -/
def treadmillActive (cfg : Config) : Bool :=
  match cfg.treadmill with
  | none => false
  | some p => decide (p ≠ 0)

/-- The treadmill pace value; only read when the option is truthy. -/
def treadmillPace (cfg : Config) : ℚ :=
  cfg.treadmill.getD 0

/-- Minimum of a series of rationals, as pandas index.min / Series.min on
a nonempty series; the empty case is unreachable in the modelled paths. -/
def qmin : List ℚ → ℚ
  | [] => 0
  | x :: xs => xs.foldl min x

/-- Maximum of a series of rationals, as pandas index.max / Series.max. -/
def qmax : List ℚ → ℚ
  | [] => 0
  | x :: xs => xs.foldl max x

/-- Arithmetic mean, as pandas Series.mean: a numpy float, nan on an
empty series. -/
def listMeanNp (l : List ℚ) : NpF :=
  if l = [] then .nan else .fin (l.sum / l.length)

/-- The timestamps of a sample series (the DataFrame index). -/
def timesOf (l : List Sample) : List ℚ := l.map (fun s => s.time)

/-- lap_halftime_value from the script:
index.min() + (index.max() - index.min()) / 2. -/
def lap_halftime_value (l : List Sample) : ℚ :=
  qmin (timesOf l) + (qmax (timesOf l) - qmin (timesOf l)) / 2

/-- Trackpoints_series.truncate(after = halftime): on a time-sorted
index this keeps exactly the rows with timestamp less than or equal to
the halftime. On an unsorted index truncate raises ValueError instead;
buildRow models that check explicitly before this projection is used. -/
def firstHalfOf (l : List Sample) : List Sample :=
  l.filter (fun s => decide (s.time ≤ lap_halftime_value l))

/-- Trackpoints_series[halftime : index.max()]: label slicing on a
time-sorted index keeps exactly the rows with halftime ≤ timestamp ≤
index.max(), both bounds inclusive. Like truncate, label slicing needs
the sorted index that buildRow checks before reaching it. -/
def secondHalfOf (l : List Sample) : List Sample :=
  l.filter (fun s =>
    decide (lap_halftime_value l ≤ s.time) && decide (s.time ≤ qmax (timesOf l)))

/-- Mean of the Bpm column of a (half) series. -/
def avgBpmNp (l : List Sample) : NpF := listMeanNp (l.map (fun s => (s.bpm : ℚ)))

/-- Monotonicity of the time index; pandas truncate and label slicing
require it and raise ValueError on an unsorted index. -/
def sortedSamples (l : List Sample) : Bool :=
  decide (l.Pairwise (fun a b => a.time ≤ b.time))

/-- Distance spread max - min of a (half) series, as the script computes
per-half distances. -/
def distSpread (l : List Sample) : ℚ :=
  qmax (l.map (fun s => (s.dist : ℚ))) - qmin (l.map (fun s => (s.dist : ℚ)))

/-- First index value of the series: Trackpoints_series.index.values[0]. -/
def utcBeginOf (lap : Lap) : ℚ := (lap.samples.headD ⟨0, 0, 0⟩).time

/-- Last index value of the series: Trackpoints_series.index.values[-1]. -/
def utcEndOf (lap : Lap) : ℚ := (lap.samples.getLastD ⟨0, 0, 0⟩).time

/-- Whole-lap measured distance: Distance[-1] - float(Distance[0]). -/
def totalDistanceOf (lap : Lap) : ℚ :=
  ((lap.samples.getLastD ⟨0, 0, 0⟩).dist : ℚ) - ((lap.samples.headD ⟨0, 0, 0⟩).dist : ℚ)

/-- First-half distance: first_half Distance max minus min. -/
def dist1Of (lap : Lap) : ℚ := distSpread (firstHalfOf lap.samples)

/-- Second-half distance: second_half Distance max minus min. -/
def dist2Of (lap : Lap) : ℚ := distSpread (secondHalfOf lap.samples)

/-- First-half average heart rate. -/
def avgBpm1Np (lap : Lap) : NpF := avgBpmNp (firstHalfOf lap.samples)

/-- Second-half average heart rate. -/
def avgBpm2Np (lap : Lap) : NpF := avgBpmNp (secondHalfOf lap.samples)

/-- get_lap_times_and_duration from the script: the first and last index
values, localized when coordinates are present and local time is enabled,
and the duration computed as their difference after that conversion.
Reading index.values[0] of an empty series raises IndexError, which no
handler in the script catches. -/
def get_lap_times_and_duration (cfg : Config) (lap : Lap) :
    Except PyErr (AwareDT × AwareDT × ℚ) :=
  match lap.samples with
  | [] => .error .indexError
  | _ :: _ =>
    let b := utcBeginOf lap
    let e := utcEndOf lap
    match lap.coords with
    | some c =>
      if cfg.localTime then
        let bt := UTC_datetime2local b (cfg.tzDB c)
        let et := UTC_datetime2local e (cfg.tzDB c)
        .ok (bt, et, awareSub et bt)
      else .ok (⟨b, 0⟩, ⟨e, 0⟩, e - b)
    | none => .ok (⟨b, 0⟩, ⟨e, 0⟩, e - b)

/-- One row dictionary of the report DataFrame. A key that was never
assigned before the per-lap exception fired is none, which pandas renders
as an empty cell. -/
structure Row where
  filename : Option String := none
  beginTime : Option AwareDT := none
  endTime : Option AwareDT := none
  duration : Option ℚ := none
  totalDistance : Option ℚ := none
  nTrackpoints : Option ℤ := none
  totalTime : Option ℤ := none
  avgBpm : Option NpF := none
  speed : Option NpF := none
  pace : Option String := none
  trackpoints : Option (List Sample) := none
  halftime : Option ℚ := none
  dist1 : Option ℚ := none
  speed1 : Option NpF := none
  pace1 : Option String := none
  avgBpm1 : Option NpF := none
  ratio1 : Option NpF := none
  dist2 : Option ℚ := none
  speed2 : Option NpF := none
  pace2 : Option String := none
  avgBpm2 : Option NpF := none
  ratio2 : Option NpF := none
  drift : Option NpF := none
  bpmDrift : Option NpF := none
deriving DecidableEq

/-- Whole-lap Speed (m/s): the numpy division of the measured distance
by the declared total time - yielding inf or nan for a zero total time,
never raising - or the constant treadmill speed when the treadmill
option is truthy. -/
def speedE (cfg : Config) (lap : Lap) : Except PyErr NpF :=
  if treadmillActive cfg = false then
    .ok (npDiv (.fin (totalDistanceOf lap)) (.fin (lap.totalTimeSeconds : ℚ)))
  else min_miles2meter_sec (treadmillPace cfg)

/-- First-half speed: numpy division of the first-half distance by half
the total time, or the constant treadmill speed. -/
def speed1E (cfg : Config) (lap : Lap) : Except PyErr NpF :=
  if treadmillActive cfg = false then
    .ok (npDiv (.fin (dist1Of lap)) (.fin ((lap.totalTimeSeconds : ℚ) / 2)))
  else min_miles2meter_sec (treadmillPace cfg)

/-- Second-half speed: numpy division of the second-half distance by
half the total time, or the constant treadmill speed. -/
def speed2E (cfg : Config) (lap : Lap) : Except PyErr NpF :=
  if treadmillActive cfg = false then
    .ok (npDiv (.fin (dist2Of lap)) (.fin ((lap.totalTimeSeconds : ℚ) / 2)))
  else min_miles2meter_sec (treadmillPace cfg)

/-- The body of one iteration of the parse_laps loop: the row dictionary
is built key by key in source order; the first exception stops the block,
leaving the keys assigned so far. The value 2 * length for the key
corresponding to the # Trackpoints column reproduces DataFrame.size,
which is rows times columns (Bpm and Distance). The fallible steps are
the IndexError of the time extraction on an empty series, the plain
Python division of the treadmill conversion, the three pace formatters -
which raise an uncaught ValueError when a nan speed reaches
timedelta(minutes = nan) - and the ValueError that truncate raises on an
unsorted index; the ratio and drift divisions are numpy-scalar and only
produce inf or nan values. -/
def buildRow (cfg : Config) (lap : Lap) : Row × Option PyErr :=
  let r0 : Row := { filename := some lap.filename }
  match get_lap_times_and_duration cfg lap with
  | .error e => (r0, some e)
  | .ok (bt, et, du) =>
    let r1 : Row :=
      { r0 with
        beginTime := some bt
        endTime := some et
        duration := some du
        totalDistance := some (totalDistanceOf lap)
        nTrackpoints := some (2 * (lap.samples.length : ℤ))
        totalTime := some lap.totalTimeSeconds
        avgBpm := some (avgBpmNp lap.samples) }
    match speedE cfg lap with
    | .error e => (r1, some e)
    | .ok sp =>
      let r2a : Row := { r1 with speed := some sp }
      match paceStringE sp with
      | .error e => (r2a, some e)
      | .ok ps =>
        let r2 : Row :=
          { r2a with
            pace := some ps
            trackpoints := some lap.samples
            halftime := some (lap_halftime_value lap.samples) }
        match sortedSamples lap.samples with
        | false => (r2, some .valueError)
        | true =>
          let r3a : Row := { r2 with dist1 := some (dist1Of lap) }
          match speed1E cfg lap with
          | .error e => (r3a, some e)
          | .ok sp1 =>
            let r3b : Row := { r3a with speed1 := some sp1 }
            match paceStringE sp1 with
            | .error e => (r3b, some e)
            | .ok ps1 =>
              let r3 : Row :=
                { r3b with
                  pace1 := some ps1
                  avgBpm1 := some (avgBpm1Np lap)
                  ratio1 := some (npDiv sp1 (avgBpm1Np lap))
                  dist2 := some (dist2Of lap) }
              match speed2E cfg lap with
              | .error e => (r3, some e)
              | .ok sp2 =>
                let r4 : Row := { r3 with speed2 := some sp2 }
                match paceStringE sp2 with
                | .error e => (r4, some e)
                | .ok ps2 =>
                  let r5 : Row :=
                    { r4 with
                      pace2 := some ps2
                      avgBpm2 := some (avgBpm2Np lap)
                      ratio2 := some (npDiv sp2 (avgBpm2Np lap)) }
                  let rt1 := npDiv sp1 (avgBpm1Np lap)
                  let rt2 := npDiv sp2 (avgBpm2Np lap)
                  let r6 : Row :=
                    { r5 with
                      drift := some (npDiv (npSub rt2 rt1) rt1)
                      bpmDrift := some (npDiv (npSub (avgBpm2Np lap) (avgBpm1Np lap))
                        (avgBpm1Np lap)) }
                  (r6, none)

/-- Diagnostic printed by the ZeroDivisionError handler of parse_laps. -/
def skipMsg (i : ℕ) : String :=
  "Lap " ++ toString i ++ " has 0 distance and/or 0 time. Skipping "

/-- The parse_laps loop from lap ordinal i on. The source wraps the loop
body in try/except ZeroDivisionError, logging a Skipping diagnostic and
still appending the row, since the append statement sits after the
block; the branch is modelled faithfully but is dead in practice - the
only division able to raise ZeroDivisionError is the treadmill
conversion, whose zero-pace case the truthiness guard makes unreachable.
Every other exception propagates out of the function and aborts it. -/
def parseLapsFrom (cfg : Config) : ℕ → List Lap → Except PyErr (List Row × List String)
  | _, [] => .ok ([], [])
  | i, lap :: rest =>
    match (buildRow cfg lap).2 with
    | none =>
      (parseLapsFrom cfg (i + 1) rest).map
        (fun p => ((buildRow cfg lap).1 :: p.1, p.2))
    | some PyErr.zeroDiv =>
      (parseLapsFrom cfg (i + 1) rest).map
        (fun p => ((buildRow cfg lap).1 :: p.1, skipMsg i :: p.2))
    | some e => .error e

/-- parse_laps from the script: one row per lap in encounter order, plus
the diagnostics it printed. -/
def parse_laps (cfg : Config) (laps : List Lap) : Except PyErr (List Row × List String) :=
  parseLapsFrom cfg 0 laps

/-- The raw per-lap data reachable through the xpath queries of
parse_tcx_lap, before any validation. -/
structure RawLap where
  coords : Option (ℚ × ℚ)
  totalTime : ℚ
  distanceMarkers : List ℚ
  bpms : List ℤ
  dists : List ℤ
  times : List ℚ
deriving DecidableEq

/-- read_tcx_files from the script: every lap of every file in document
order, each tagged with its file basename, files kept in argument-list
order; no sorting of any kind. -/
def read_tcx_files (files : List (String × List RawLap)) : List (String × RawLap) :=
  files.flatMap (fun f => f.2.map (fun l => (f.1, l)))

/-- Pair the three per-trackpoint columns into the time-indexed series. -/
def zipSamples : List ℚ → List ℤ → List ℤ → List Sample
  | t :: ts, b :: bs, d :: ds => ⟨t, b, d⟩ :: zipSamples ts bs ds
  | _, _, _ => []

/-- The Lap record parse_tcx_lap builds for one raw lap when no exception
fires. -/
def lapOfRaw (fl : String × RawLap) : Lap :=
  { filename := fl.1, coords := fl.2.coords,
    totalTimeSeconds := pyInt fl.2.totalTime,
    distanceMeters := fl.2.distanceMarkers.drop 1,
    samples := zipSamples fl.2.times fl.2.bpms fl.2.dists }

/-- The parse_tcx_lap loop body for one lap. The script raises its
malformed-lap Exception only when len(Bpm) != len(Distance) != len(Time)
holds as a Python chained comparison, that is when both adjacent
inequalities hold; when only one holds, the check passes and the pandas
DataFrame constructor itself raises ValueError because the columns and
index do not all have the same length. Neither exception is caught
anywhere in the script. -/
def parseOneLap (fl : String × RawLap) : Except PyErr Lap :=
  if fl.2.bpms.length ≠ fl.2.dists.length ∧ fl.2.dists.length ≠ fl.2.times.length then
    .error .malformedLap
  else if fl.2.bpms.length = fl.2.dists.length ∧ fl.2.dists.length = fl.2.times.length then
    .ok (lapOfRaw fl)
  else .error .valueError

/-- parse_tcx_lap over the lap list; the first exception aborts the whole
call, losing every lap. -/
def parse_tcx_lap : List (String × RawLap) → Except PyErr (List Lap)
  | [] => .ok []
  | fl :: rest =>
    match parseOneLap fl with
    | .error e => .error e
    | .ok lap =>
      match parse_tcx_lap rest with
      | .error e => .error e
      | .ok laps => .ok (lap :: laps)

/-- The main program pipeline:
parse_laps(parse_tcx_lap(read_tcx_files(file_list))). -/
def pipeline (cfg : Config) (files : List (String × List RawLap)) :
    Except PyErr (List Row × List String) :=
  match parse_tcx_lap (read_tcx_files files) with
  | .error e => .error e
  | .ok laps => parse_laps cfg laps

/-- A cell value of the rendered report table. -/
inductive CellV where
  | s (v : String)
  | q (v : ℚ)
  | np (v : NpF)
  | i (v : ℤ)
  | dt (v : AwareDT)
  | series (v : List Sample)
deriving DecidableEq

/-- Projection of one row on one column label, as pandas does when
to_csv receives a column list; a key never assigned is an empty cell. -/
def cellOf (r : Row) : String → Option CellV
  | "Filename" => r.filename.map .s
  | "Beginning time" => r.beginTime.map .dt
  | "End time" => r.endTime.map .dt
  | "Duration" => r.duration.map .q
  | "Total distance" => r.totalDistance.map .q
  | "# Trackpoints" => r.nTrackpoints.map .i
  | "Total time" => r.totalTime.map .i
  | "Avg. BPM" => r.avgBpm.map .np
  | "Speed (m/s)" => r.speed.map .np
  | "Pace (min:mi)" => r.pace.map .s
  | "Trackpoints" => r.trackpoints.map .series
  | "Halftime" => r.halftime.map .q
  | "1st half distance" => r.dist1.map .q
  | "1st half speed (m/s)" => r.speed1.map .np
  | "1st half pace (min:mi)" => r.pace1.map .s
  | "1st half avg. BPM" => r.avgBpm1.map .np
  | "1st half speed/avg. BPM ratio" => r.ratio1.map .np
  | "2nd half distance" => r.dist2.map .q
  | "2nd half speed (m/s)" => r.speed2.map .np
  | "2nd half pace (min:mi)" => r.pace2.map .s
  | "2nd half avg. BPM" => r.avgBpm2.map .np
  | "2nd half speed/avg. BPM ratio" => r.ratio2.map .np
  | "1st/2nd half drift" => r.drift.map .np
  | "1st/2nd hald BPM-only drift" => r.bpmDrift.map .np
  | _ => none

/-- The summary column list hard-coded in csv_output, in source order;
the misspelling hald is faithful to the source. -/
def summaryColumns : List String :=
  ["Filename", "Beginning time", "End time", "Duration", "1st/2nd half drift",
   "Avg. BPM", "1st half avg. BPM", "2nd half avg. BPM",
   "1st/2nd hald BPM-only drift"]

/-- All row keys in dictionary insertion order; pandas prints every
column when csv_output passes columns = None in details mode. -/
def allColumns : List String :=
  ["Filename", "Beginning time", "End time", "Duration", "Total distance",
   "# Trackpoints", "Total time", "Avg. BPM", "Speed (m/s)", "Pace (min:mi)",
   "Trackpoints", "Halftime", "1st half distance", "1st half speed (m/s)",
   "1st half pace (min:mi)", "1st half avg. BPM",
   "1st half speed/avg. BPM ratio", "2nd half distance",
   "2nd half speed (m/s)", "2nd half pace (min:mi)", "2nd half avg. BPM",
   "2nd half speed/avg. BPM ratio", "1st/2nd half drift",
   "1st/2nd hald BPM-only drift"]

/-- Modelled from the spec: the summary column order as section 4.5 of
the specification lists it - filename, begin time, end time, duration,
the heart-rate averages (whole, first half, second half), then both
drift ratios. Defined only to compare with the order the code uses. -/
def specSummaryColumns : List String :=
  ["Filename", "Beginning time", "End time", "Duration", "Avg. BPM",
   "1st half avg. BPM", "2nd half avg. BPM", "1st/2nd half drift",
   "1st/2nd hald BPM-only drift"]

/-- The rendered CSV table: optional header (row-index label followed by
the column names) and one (row index, cells) entry per DataFrame row. -/
structure CsvTable where
  header : Option (List String)
  body : List (ℕ × List (Option CellV))
deriving DecidableEq

/-- Whether the report DataFrame has a column: a column exists when at
least one row dictionary assigned the key. -/
def dfHasColumn (rows : List Row) (c : String) : Bool :=
  rows.any (fun r => (cellOf r c).isSome)

/-- The columns of the report DataFrame, in key insertion order. -/
def dfColumns (rows : List Row) : List String :=
  allColumns.filter (fun c => dfHasColumn rows c)

/-- csv_output from the script: summary or full column set depending on
the details flag; to_csv with an explicit column list raises KeyError
when a requested column is absent from the DataFrame (an empty report,
for instance, has no columns at all), while columns = None in details
mode prints every DataFrame column. The header row, carrying the
row-index label lap, appears only when the columns flag is set, because
the script compares args.columns == 0 and False == 0 holds in Python. -/
def csv_output (cfg : Config) (laps_array : List Row) : Except PyErr CsvTable :=
  if cfg.details = false then
    if summaryColumns.all (fun c => dfHasColumn laps_array c) then
      let body := laps_array.enum.map (fun p => (p.1, summaryColumns.map (cellOf p.2)))
      if cfg.columns = false then .ok ⟨none, body⟩
      else .ok ⟨some ("lap" :: summaryColumns), body⟩
    else .error .keyError
  else
    let cols := dfColumns laps_array
    let body := laps_array.enum.map (fun p => (p.1, cols.map (cellOf p.2)))
    if cfg.columns = false then .ok ⟨none, body⟩
    else .ok ⟨some ("lap" :: cols), body⟩

/-- Numeric value of a list of decimal digits, none on other input. -/
def digitsValGo : List Char → ℕ → Option ℕ
  | [], acc => some acc
  | c :: cs, acc =>
    if c.isDigit then digitsValGo cs (10 * acc + (c.toNat - 48)) else none

/-- The digits after the last colon of a formatted time string: the
seconds field that the pace format constrains. -/
def secsField (str : String) : Option ℕ :=
  digitsValGo ((str.data.reverse.takeWhile (fun c => c ≠ ':')).reverse) 0

/-- A timezone database assigning UTC offset 0 everywhere. -/
def tzZero : ℚ × ℚ → ℚ → ℚ := fun _ _ => 0

/-- Baseline configuration: summary columns, no header, UTC time, no
treadmill option. -/
def cfgBase : Config :=
  { details := false, columns := false, localTime := false,
    treadmill := none, tzDB := tzZero }

/-- Configuration with the treadmill option set to the default pace 12. -/
def cfgTread12 : Config :=
  { cfgBase with treadmill := some 12 }

/-- Configuration requesting the header row. -/
def cfgSummaryHeader : Config :=
  { cfgBase with columns := true }

/-- Configuration with local-time conversion on and a timezone database
returning a constant offset of one hour. -/
def cfgLocal : Config :=
  { details := false, columns := false, localTime := true,
    treadmill := none, tzDB := fun _ _ => 3600 }

/-- Raw lap whose heart-rate sequence is shorter than its distance
sequence while distance and time sequences agree: the chained comparison
of the malformed-lap check does not fire on it. -/
def rawHrShort : RawLap :=
  { coords := none, totalTime := 30, distanceMarkers := [],
    bpms := [100, 101], dists := [0, 1, 2], times := [0, 1, 2] }

/-- Raw lap whose three sequences have pairwise different lengths: the
chained comparison fires and the malformed-lap Exception is raised. -/
def rawAllDiff : RawLap :=
  { coords := none, totalTime := 30, distanceMarkers := [],
    bpms := [100], dists := [0, 1], times := [0, 1, 2] }

/-- A well-formed raw lap. -/
def rawGoodLap : RawLap :=
  { coords := none, totalTime := 60, distanceMarkers := [0, 10],
    bpms := [100, 110], dists := [0, 50], times := [0, 60] }

/-- A lap whose declared total time is zero, triggering the division by
zero in the whole-lap speed computation when the treadmill option is
absent. -/
def lapZeroTime : Lap :=
  { filename := "z.tcx", coords := none, totalTimeSeconds := 0,
    distanceMeters := [], samples := [⟨0, 100, 0⟩, ⟨60, 110, 10⟩] }

/-- Three evenly spaced samples used to exercise the temporal split. -/
def samples3 : List Sample := [⟨0, 100, 0⟩, ⟨30, 110, 5⟩, ⟨60, 120, 10⟩]

/-- A well-formed lap with nonzero total time. -/
def lapGood : Lap :=
  { filename := "g.tcx", coords := none, totalTimeSeconds := 60,
    distanceMeters := [], samples := [⟨0, 100, 0⟩, ⟨60, 120, 50⟩] }

/-- A lap with nonzero total time and nonzero first-half distance
spread. -/
def lapSpread : Lap :=
  { filename := "s.tcx", coords := none, totalTimeSeconds := 60,
    distanceMeters := [],
    samples := [⟨0, 100, 0⟩, ⟨10, 105, 20⟩, ⟨60, 110, 100⟩] }

/-- A lap carrying coordinates, for the local-time claims. -/
def lapCoords : Lap :=
  { filename := "c.tcx", coords := some (10, 20), totalTimeSeconds := 60,
    distanceMeters := [], samples := [⟨0, 100, 0⟩, ⟨60, 110, 10⟩] }

/-- A lap with exactly three trackpoints. -/
def lap3 : Lap :=
  { filename := "t.tcx", coords := none, totalTimeSeconds := 3,
    distanceMeters := [],
    samples := [⟨0, 100, 0⟩, ⟨1, 100, 0⟩, ⟨2, 100, 0⟩] }

/-- Argument list of two single-lap files whose basenames are in reverse
lexical order relative to the argument order. -/
def filesW : List (String × List RawLap) :=
  [("b.tcx", [rawGoodLap]), ("a.tcx", [rawGoodLap])]

/-- The laps parse_tcx_lap produces from filesW. -/
def lapsW : List Lap :=
  [{ filename := "b.tcx", coords := none, totalTimeSeconds := 60,
     distanceMeters := [10], samples := [⟨0, 100, 0⟩, ⟨60, 110, 50⟩] },
   { filename := "a.tcx", coords := none, totalTimeSeconds := 60,
     distanceMeters := [10], samples := [⟨0, 100, 0⟩, ⟨60, 110, 50⟩] }]

/-- The m/s speed whose minutes-per-mile pace is 12.9925 minutes, that is
12 minutes and 59.55 seconds. -/
def speedRound60 : ℚ := 643736 / 311820

/- ------------------------------------------------------------------ -/
/- Helper lemmas.                                                      -/
/- ------------------------------------------------------------------ -/

theorem foldl_max_le_init : ∀ (xs : List ℚ) (a : ℚ), a ≤ xs.foldl max a
  | [], a => le_refl a
  | x :: xs, a => le_trans (le_max_left a x) (foldl_max_le_init xs (max a x))

theorem le_foldl_max_of_mem : ∀ {x : ℚ} (xs : List ℚ) (a : ℚ), x ∈ xs → x ≤ xs.foldl max a := by
  intro x xs
  induction xs with
  | nil => intro a h; cases h
  | cons b xs ih =>
    intro a h
    rcases List.mem_cons.mp h with h | h
    · subst h
      exact le_trans (le_max_right a x) (foldl_max_le_init xs (max a x))
    · exact ih (max a b) h

theorem le_qmax {x : ℚ} {l : List ℚ} (h : x ∈ l) : x ≤ qmax l := by
  cases l with
  | nil => cases h
  | cons a xs =>
    rcases List.mem_cons.mp h with h | h
    · subst h; exact foldl_max_le_init xs x
    · exact le_foldl_max_of_mem xs a h

theorem length_le_filter_add_filter {α : Type} (p q : α → Bool) :
    ∀ l : List α, (∀ x ∈ l, p x = true ∨ q x = true) →
      l.length ≤ (l.filter p).length + (l.filter q).length := by
  intro l
  induction l with
  | nil => intro _; simp
  | cons a l ih =>
    intro h
    have ha := h a (List.mem_cons_self a l)
    have ih2 := ih (fun x hx => h x (List.mem_cons_of_mem a hx))
    by_cases hp : p a = true
    · by_cases hq : q a = true
      · simp only [List.filter_cons, hp, hq, if_pos, List.length_cons]
        omega
      · simp only [List.filter_cons, hp, if_pos, List.length_cons,
          Bool.not_eq_true] at *
        simp only [hq, if_neg, Bool.false_eq_true, if_false]
        omega
    · have hq : q a = true := ha.resolve_left hp
      have hp2 : p a = false := by
        revert hp; cases p a <;> simp
      simp only [List.filter_cons, hp2, hq, if_pos, Bool.false_eq_true,
        if_false, List.length_cons]
      omega

theorem buildRow_filename (cfg : Config) (lap : Lap) :
    ((buildRow cfg lap).1).filename = some lap.filename := by
  unfold buildRow
  repeat' split
  all_goals rfl

theorem buildRow_err_bpmDrift (cfg : Config) (lap : Lap) (row : Row) (e : PyErr)
    (hb : buildRow cfg lap = (row, some e)) : row.bpmDrift = none := by
  unfold buildRow at hb
  repeat' split at hb
  all_goals
    (injection hb with h1 h2;
      first
      | (subst h1; rfl)
      | exact Option.noConfusion h2)

theorem ratFloor_eq (q : ℚ) : ratFloor q = ⌊q⌋ := Rat.floor_def.symm

theorem pyRound_nonneg {q : ℚ} (h : 0 ≤ q) : 0 ≤ pyRound q := by
  have hf : (0 : ℤ) ≤ ratFloor q := by
    rw [ratFloor_eq]
    exact Int.floor_nonneg.mpr h
  unfold pyRound
  dsimp only
  split
  · exact hf
  · split
    · omega
    · split <;> omega

theorem pyRound_le {q : ℚ} {n : ℤ} (h : q < (n : ℚ)) : pyRound q ≤ n := by
  have hf : ratFloor q ≤ n - 1 := by
    rw [ratFloor_eq]
    have : ⌊q⌋ < n := Int.floor_lt.mpr h
    omega
  unfold pyRound
  dsimp only
  split
  · omega
  · split
    · omega
    · split <;> omega

theorem get_lap_ok_of_ne_nil (cfg : Config) (lap : Lap) (h : lap.samples ≠ []) :
    ∃ v, get_lap_times_and_duration cfg lap = .ok v := by
  unfold get_lap_times_and_duration
  cases hs : lap.samples with
  | nil => exact absurd hs h
  | cons a t =>
    cases hc : lap.coords with
    | none => exact ⟨_, rfl⟩
    | some c =>
      by_cases hl : cfg.localTime = true
      · simp only [hl, if_true]
        exact ⟨_, rfl⟩
      · simp only [hl, if_false]
        exact ⟨_, rfl⟩

/- ------------------------------------------------------------------ -/
/- Claims.                                                             -/
/- ------------------------------------------------------------------ -/

/-- C1: the claim states that a lap whose heart-rate, distance and time
sequences are not all of equal length is rejected with a malformed-lap
error, excluded from the output, without an unhandled fault aborting the
whole run. The code contradicts this: for rawHrShort, whose heart-rate
length differs from its distance length while distance and time lengths
agree, the chained comparison does not fire and the pandas constructor
raises ValueError instead; for rawAllDiff the malformed-lap Exception is
raised, and in both cases the exception is uncaught, so the whole
pipeline aborts and even the well-formed laps produce no output. -/
theorem c1_malformed_lap_errors_are_fatal :
    parseOneLap ("run.tcx", rawHrShort) = .error .valueError
    ∧ parse_tcx_lap [("run.tcx", rawAllDiff), ("run.tcx", rawGoodLap)] =
        .error .malformedLap
    ∧ pipeline cfgBase [("run.tcx", [rawAllDiff, rawGoodLap])] =
        .error .malformedLap := by
  refine ⟨rfl, rfl, rfl⟩

/-- C3: the temporal split computes halftime = min + (max - min) / 2 and
puts into the first half exactly the samples with timestamp at most the
halftime, into the second half exactly those with timestamp at least the
halftime, so the two half sizes sum to at least the total count. -/
theorem c3_temporal_split (l : List Sample) (hne : l ≠ [])
    (hsort : l.Pairwise (fun a b => a.time ≤ b.time)) :
    (∀ x, x ∈ firstHalfOf l ↔ x ∈ l ∧ x.time ≤ lap_halftime_value l)
    ∧ (∀ x, x ∈ secondHalfOf l ↔ x ∈ l ∧ lap_halftime_value l ≤ x.time)
    ∧ l.length ≤ (firstHalfOf l).length + (secondHalfOf l).length := by
  have hmax : ∀ x ∈ l, x.time ≤ qmax (timesOf l) := by
    intro x hx
    exact le_qmax (List.mem_map_of_mem (fun s => s.time) hx)
  refine ⟨?_, ?_, ?_⟩
  · intro x
    simp [firstHalfOf, List.mem_filter]
  · intro x
    simp only [secondHalfOf, List.mem_filter, Bool.and_eq_true, decide_eq_true_eq]
    constructor
    · rintro ⟨hx, h1, _⟩; exact ⟨hx, h1⟩
    · rintro ⟨hx, h1⟩; exact ⟨hx, h1, hmax x hx⟩
  · apply length_le_filter_add_filter
    intro x hx
    rcases le_total x.time (lap_halftime_value l) with h | h
    · left; simpa using h
    · right
      simp only [Bool.and_eq_true, decide_eq_true_eq]
      exact ⟨h, hmax x hx⟩

/-- Witness for C3 on three evenly spaced samples: the halves overlap in
the boundary sample, so their sizes sum to 4 ≥ 3. -/
theorem c3_temporal_split_witness :
    samples3 ≠ [] ∧
      samples3.length ≤ (firstHalfOf samples3).length + (secondHalfOf samples3).length := by
  refine ⟨by decide, ?_⟩
  exact (c3_temporal_split samples3 (by decide) (by decide)).2.2

/-- C8: the claim states that the sample-count field of a row equals the
number of trackpoints of the lap. The code stores
Trackpoints_series.size, which for the two-column DataFrame is twice the
number of trackpoints: for the three-trackpoint lap3 the field holds 6. -/
theorem c8_trackpoint_count_doubled :
    ((buildRow cfgBase lap3).1).nTrackpoints = some 6
    ∧ lap3.samples.length = 3 := by
  refine ⟨by with_unfolding_all rfl, rfl⟩

/-- C5: localizing both lap boundary instants is a no-op on the duration:
for any timezone the external collaborator returns, the difference of the
two localized datetimes equals the difference of the raw UTC instants,
and consequently the duration field computed by
get_lap_times_and_duration equals the UTC end minus the UTC begin. -/
theorem c5_local_time_duration_invariant :
    (∀ (tz : ℚ → ℚ) (b e : ℚ),
        awareSub (UTC_datetime2local e tz) (UTC_datetime2local b tz) = e - b)
    ∧ (∀ (cfg : Config) (lap : Lap) (bt et : AwareDT) (du : ℚ),
        lap.coords.isSome = true → cfg.localTime = true →
        get_lap_times_and_duration cfg lap = .ok (bt, et, du) →
        du = utcEndOf lap - utcBeginOf lap) := by
  have h1 : ∀ (tz : ℚ → ℚ) (b e : ℚ),
      awareSub (UTC_datetime2local e tz) (UTC_datetime2local b tz) = e - b := by
    intro tz b e
    unfold awareSub UTC_datetime2local
    ring
  refine ⟨h1, ?_⟩
  intro cfg lap bt et du hc hl hg
  unfold get_lap_times_and_duration at hg
  repeat' split at hg
  all_goals
    first
    | exact Except.noConfusion hg
    | simp_all

/-- Witness for C5 at a concrete lap with coordinates and a one-hour
timezone offset. -/
theorem c5_witness :
    lapCoords.coords.isSome = true
    ∧ cfgLocal.localTime = true
    ∧ get_lap_times_and_duration cfgLocal lapCoords =
        .ok (⟨3600, 3600⟩, ⟨3660, 3600⟩, 60)
    ∧ (60 : ℚ) = utcEndOf lapCoords - utcBeginOf lapCoords := by
  have hg : get_lap_times_and_duration cfgLocal lapCoords =
      .ok (⟨3600, 3600⟩, ⟨3660, 3600⟩, 60) := by with_unfolding_all rfl
  exact ⟨rfl, rfl, hg,
    c5_local_time_duration_invariant.2 cfgLocal lapCoords ⟨3600, 3600⟩
      ⟨3660, 3600⟩ 60 rfl rfl hg⟩

/-- C2: the claim says a division by zero while computing derived metrics
is caught per-lap, with a logged diagnostic and the incomplete row still
appended. In the code the metric divisions are numpy-scalar and never
raise: on the zero-total-time lap the whole-lap speed silently becomes
inf and the first-half speed nan, so the except ZeroDivisionError
handler never fires - no diagnostic, no partial-row append. The nan then
reaches timedelta(minutes = nan) inside the pace formatter, whose
ValueError no handler catches, so the whole run aborts and the following
well-formed lap is lost with it. -/
theorem c2_zero_division_not_caught :
    ((buildRow cfgBase lapZeroTime).1).speed = some NpF.pinf
    ∧ ((buildRow cfgBase lapZeroTime).1).speed1 = some NpF.nan
    ∧ ((buildRow cfgBase lapZeroTime).1).pace1 = none
    ∧ (buildRow cfgBase lapZeroTime).2 = some PyErr.valueError
    ∧ parse_laps cfgBase [lapZeroTime, lapGood] = .error PyErr.valueError := by
  refine ⟨?_, ?_, ?_, ?_, ?_⟩ <;> with_unfolding_all rfl

/-- C6 counterexample: in summary mode with the header requested, the
header carries the 9 code columns, and that list differs from the order
documented by the spec, which places both drift ratios after the three
heart-rate averages; the code interleaves the speed-based drift between
Duration and the whole-lap average. -/
theorem c6_counterexample_column_order :
    csv_output cfgSummaryHeader [(buildRow cfgBase lapGood).1] =
      .ok ⟨some ("lap" :: summaryColumns),
        [(0, summaryColumns.map (cellOf (buildRow cfgBase lapGood).1))]⟩
    ∧ summaryColumns ≠ specSummaryColumns := by
  constructor
  · with_unfolding_all rfl
  · decide

/-- C6 amended: in summary mode, on a report whose DataFrame carries the
summary columns (pandas to_csv raises KeyError otherwise), the output
has exactly the 9 summary columns in the order hard-coded in csv_output
(filename, begin, end, duration, speed drift, the three heart-rate
averages, heart-rate drift), every body row is the projection of the
corresponding report row on those 9 columns in encounter order, and the
header row appears if and only if the columns flag requests it. -/
theorem c6_amended_summary_columns (cfg : Config) (rows : List Row)
    (hd : cfg.details = false)
    (hcols : summaryColumns.all (fun c => dfHasColumn rows c) = true) :
    csv_output cfg rows =
      .ok ⟨(if cfg.columns then some ("lap" :: summaryColumns) else none),
        rows.enum.map (fun p => (p.1, summaryColumns.map (cellOf p.2)))⟩
    ∧ summaryColumns.length = 9 := by
  constructor
  · cases hc : cfg.columns <;> simp [csv_output, hd, hcols, hc]
  · rfl

/-- Witness for C6 amended at the concrete header-requesting summary
configuration on a one-row report. -/
theorem c6_amended_witness :
    cfgSummaryHeader.details = false
    ∧ summaryColumns.all (fun c => dfHasColumn [(buildRow cfgBase lapGood).1] c) = true
    ∧ csv_output cfgSummaryHeader [(buildRow cfgBase lapGood).1] =
        .ok ⟨(if cfgSummaryHeader.columns then some ("lap" :: summaryColumns) else none),
          [(buildRow cfgBase lapGood).1].enum.map
            (fun p => (p.1, summaryColumns.map (cellOf p.2)))⟩ := by
  have hcols : summaryColumns.all
      (fun c => dfHasColumn [(buildRow cfgBase lapGood).1] c) = true := by
    with_unfolding_all rfl
  exact ⟨rfl, hcols,
    (c6_amended_summary_columns cfgSummaryHeader
      [(buildRow cfgBase lapGood).1] rfl hcols).1⟩

/-- C9 counterexample: the claim bounds the seconds field of the pace
string by 59, but at the speed whose pace is 12 minutes 59.55 seconds the
script rounds the seconds field to 60 and prints 12:60. -/
theorem c9_counterexample_seconds_60 :
    mil_min_val_to_mil_min_string (meter_sec_2_min_miles speedRound60) = "12:60"
    ∧ secsField (mil_min_val_to_mil_min_string (meter_sec_2_min_miles speedRound60)) =
        some 60 := by
  constructor <;> with_unfolding_all rfl

/-- C9 amended: for every nonnegative speed, zero speed formats as 00:00,
and otherwise the pace string is a two-digit minutes field (0 to 59) and
a zero-filled seconds field whose value lies between 0 and 60 inclusive:
the rounding of the fractional seconds can reach 60, one more than the
claimed upper bound of 59. -/
theorem c9_amended_pace_format (s : ℚ) (h0 : 0 ≤ s) :
    (s = 0 → mil_min_val_to_mil_min_string (meter_sec_2_min_miles s) = "00:00")
    ∧ ∃ mm ss : ℤ, 0 ≤ mm ∧ mm ≤ 59 ∧ 0 ≤ ss ∧ ss ≤ 60 ∧
        mil_min_val_to_mil_min_string (meter_sec_2_min_miles s) =
          zfill2 mm ++ ":" ++ zfill2 ss := by
  by_cases hs : s = 0
  · subst hs
    have hv : meter_sec_2_min_miles 0 = 0 := by
      simp [meter_sec_2_min_miles]
    refine ⟨fun _ => by rw [hv]; rfl, 0, 0, le_refl 0, by norm_num, le_refl 0, by norm_num, ?_⟩
    rw [hv]
    rfl
  · have hM : METERS2MILES ≠ 0 := by norm_num [METERS2MILES]
    have hMpos : 0 < METERS2MILES := by norm_num [METERS2MILES]
    have hspos : 0 < s := lt_of_le_of_ne h0 (Ne.symm hs)
    have hmpos : 0 < s / METERS2MILES * 60 := by positivity
    have hmne : s / METERS2MILES * 60 ≠ 0 := ne_of_gt hmpos
    have hval : meter_sec_2_min_miles s = 1 / (s / METERS2MILES * 60) := by
      simp only [meter_sec_2_min_miles]
      rw [if_neg hmne]
    have hvpos : 0 < 1 / (s / METERS2MILES * 60) := by positivity
    have hvne : (1 : ℚ) / (s / METERS2MILES * 60) ≠ 0 := ne_of_gt hvpos
    set v : ℚ := 1 / (s / METERS2MILES * 60) with hvdef
    have husnn : 0 ≤ tdUs v := by
      apply pyRound_nonneg
      positivity
    have hmm1 : 0 ≤ tdMM v := by
      unfold tdMM
      omega
    have hmm2 : tdMM v ≤ 59 := by
      unfold tdMM
      omega
    have hsec1 : 0 ≤ tdSecR v := by
      unfold tdSecR
      have h1 : (0 : ℤ) ≤ tdUs v / 1000000 % 60 := by omega
      have h2 : (0 : ℤ) ≤ tdUs v % 1000000 := by omega
      have c1 : (0 : ℚ) ≤ ((tdUs v / 1000000 % 60 : ℤ) : ℚ) := by exact_mod_cast h1
      have c2 : (0 : ℚ) ≤ ((tdUs v % 1000000 : ℤ) : ℚ) := by exact_mod_cast h2
      have : (0 : ℚ) ≤ ((tdUs v % 1000000 : ℤ) : ℚ) / 1000000 := by positivity
      linarith
    have hsec2 : tdSecR v < 60 := by
      unfold tdSecR
      have h1 : tdUs v / 1000000 % 60 ≤ 59 := by omega
      have h2 : tdUs v % 1000000 ≤ 999999 := by omega
      have c1 : ((tdUs v / 1000000 % 60 : ℤ) : ℚ) ≤ 59 := by exact_mod_cast h1
      have c2 : ((tdUs v % 1000000 : ℤ) : ℚ) ≤ 999999 := by exact_mod_cast h2
      have c3 : ((tdUs v % 1000000 : ℤ) : ℚ) / 1000000 < 1 := by
        rw [div_lt_one (by norm_num)]
        linarith
      linarith
    refine ⟨fun h => absurd h hs, tdMM v, pyRound (tdSecR v),
      hmm1, hmm2, pyRound_nonneg hsec1, pyRound_le (by exact_mod_cast hsec2), ?_⟩
    rw [hval]
    simp only [mil_min_val_to_mil_min_string]
    rw [if_neg hvne]

/-- Witness for C9 amended at speed 1 m/s. -/
theorem c9_amended_witness :
    (0 : ℚ) ≤ 1
    ∧ (((1 : ℚ) = 0 → mil_min_val_to_mil_min_string (meter_sec_2_min_miles 1) = "00:00")
       ∧ ∃ mm ss : ℤ, 0 ≤ mm ∧ mm ≤ 59 ∧ 0 ≤ ss ∧ ss ≤ 60 ∧
           mil_min_val_to_mil_min_string (meter_sec_2_min_miles 1) =
             zfill2 mm ++ ":" ++ zfill2 ss) := by
  exact ⟨by norm_num, c9_amended_pace_format 1 (by norm_num)⟩

theorem parseOneLap_ok (fl : String × RawLap) (lap : Lap)
    (h : parseOneLap fl = .ok lap) : lap = lapOfRaw fl := by
  unfold parseOneLap at h
  repeat' split at h
  all_goals
    first
    | exact Except.noConfusion h
    | (injection h with h1; exact h1.symm)

theorem parse_tcx_lap_ok : ∀ (pairs : List (String × RawLap)) (laps : List Lap),
    parse_tcx_lap pairs = .ok laps → laps = pairs.map lapOfRaw := by
  intro pairs
  induction pairs with
  | nil =>
    intro laps h
    unfold parse_tcx_lap at h
    injection h with h1
    simp [← h1]
  | cons fl rest ih =>
    intro laps h
    unfold parse_tcx_lap at h
    cases hone : parseOneLap fl with
    | error e => rw [hone] at h; exact Except.noConfusion h
    | ok lap =>
      rw [hone] at h
      cases hrest : parse_tcx_lap rest with
      | error e => rw [hrest] at h; exact Except.noConfusion h
      | ok laps2 =>
        rw [hrest] at h
        injection h with h1
        rw [← h1, List.map_cons, parseOneLap_ok fl lap hone, ih laps2 hrest]

theorem parseLapsFrom_ok_rows (cfg : Config) :
    ∀ (laps : List Lap) (i : ℕ) (rows : List Row) (ls : List String),
      parseLapsFrom cfg i laps = .ok (rows, ls) →
      rows = laps.map (fun l => (buildRow cfg l).1) := by
  intro laps
  induction laps with
  | nil =>
    intro i rows ls h
    unfold parseLapsFrom at h
    injection h with h1
    injection h1 with h2 h3
    simp [← h2]
  | cons lap rest ih =>
    intro i rows ls h
    unfold parseLapsFrom at h
    cases he : (buildRow cfg lap).2 with
    | none =>
      rw [he] at h
      cases hr : parseLapsFrom cfg (i + 1) rest with
      | error e => rw [hr] at h; exact Except.noConfusion h
      | ok p =>
        rw [hr] at h
        injection h with h1
        injection h1 with h2 h3
        rw [← h2, List.map_cons]
        rw [ih (i + 1) p.1 p.2 (by rw [hr])]
    | some e =>
      rw [he] at h
      cases e with
      | zeroDiv =>
        cases hr : parseLapsFrom cfg (i + 1) rest with
        | error e2 => rw [hr] at h; exact Except.noConfusion h
        | ok p =>
          rw [hr] at h
          injection h with h1
          injection h1 with h2 h3
          rw [← h2, List.map_cons]
          rw [ih (i + 1) p.1 p.2 (by rw [hr])]
      | indexError => exact Except.noConfusion h
      | valueError => exact Except.noConfusion h
      | malformedLap => exact Except.noConfusion h
      | keyError => exact Except.noConfusion h
      | overflowError => exact Except.noConfusion h

theorem read_tcx_files_filenames (cfg : Config) :
    ∀ files : List (String × List RawLap),
      ((read_tcx_files files).map
        (fun fl => ((buildRow cfg (lapOfRaw fl)).1).filename)) =
      files.flatMap (fun f => f.2.map (fun _ => some f.1)) := by
  intro files
  induction files with
  | nil => rfl
  | cons f fs ih =>
    simp only [read_tcx_files, List.flatMap_cons, List.map_append] at *
    rw [ih]
    congr 1
    rw [List.map_map]
    apply List.map_congr_left
    intro l _
    exact buildRow_filename cfg (lapOfRaw (f.1, l))

/-- C7: when the whole pipeline succeeds, the report carries exactly one
row per lap, in encounter order - laps of an earlier argument file come
first regardless of lexical filename order, and laps of one file keep
their document order; the row filenames spell this order out. -/
theorem c7_row_order (cfg : Config) (files : List (String × List RawLap))
    (laps : List Lap) (rows : List Row) (logs : List String)
    (h1 : parse_tcx_lap (read_tcx_files files) = .ok laps)
    (h2 : parse_laps cfg laps = .ok (rows, logs)) :
    rows = (read_tcx_files files).map (fun fl => (buildRow cfg (lapOfRaw fl)).1)
    ∧ rows.map (fun r => r.filename) =
        files.flatMap (fun f => f.2.map (fun _ => some f.1)) := by
  have hl : laps = (read_tcx_files files).map lapOfRaw :=
    parse_tcx_lap_ok _ _ h1
  have hr : rows = laps.map (fun l => (buildRow cfg l).1) :=
    parseLapsFrom_ok_rows cfg laps 0 rows logs h2
  constructor
  · rw [hr, hl, List.map_map]
    rfl
  · rw [hr, hl, List.map_map, List.map_map]
    exact read_tcx_files_filenames cfg files

/-- Witness for C7 on two files given in reverse lexical order: the
report rows keep the argument order b.tcx before a.tcx. -/
theorem c7_witness :
    (parse_laps cfgBase lapsW).map (fun pr => pr.1.map (fun r => r.filename)) =
      .ok [some "b.tcx", some "a.tcx"] := by
  obtain ⟨⟨rows, logs⟩, h2⟩ : ∃ pr, parse_laps cfgBase lapsW = .ok pr :=
    ⟨_, by with_unfolding_all rfl⟩
  have h1 : parse_tcx_lap (read_tcx_files filesW) = .ok lapsW := by
    with_unfolding_all rfl
  have h := c7_row_order cfgBase filesW lapsW rows logs h1 h2
  rw [h2]
  simp only [Except.map, Except.ok.injEq]
  rw [h.2]
  with_unfolding_all rfl

theorem npDiv_fin_fin (x y : ℚ) (hy : y ≠ 0) :
    npDiv (.fin x) (.fin y) = .fin (x / y) := by
  simp only [npDiv]
  rw [if_neg hy]

theorem paceStringE_fin (q : ℚ) :
    paceStringE (.fin q) =
      .ok (mil_min_val_to_mil_min_string (meter_sec_2_min_miles q)) := rfl

theorem min_miles2meter_sec_ok (p : ℚ) (hp : p ≠ 0) :
    min_miles2meter_sec p = .ok (.fin (1 / (p * 60 / METERS2MILES))) := by
  unfold min_miles2meter_sec
  rw [if_neg]
  exact div_ne_zero (mul_ne_zero hp (by norm_num)) (by norm_num [METERS2MILES])

theorem treadmillActive_some (cfg : Config) (p : ℚ) (hc : cfg.treadmill = some p)
    (hp : p ≠ 0) : treadmillActive cfg = true := by
  unfold treadmillActive
  rw [hc]
  simp [hp]

theorem treadmillActive_none (cfg : Config) (hc : cfg.treadmill = none) :
    treadmillActive cfg = false := by
  unfold treadmillActive
  rw [hc]

theorem speedE_tread (cfg : Config) (lap : Lap) (p : ℚ)
    (hc : cfg.treadmill = some p) (hp : p ≠ 0) :
    speedE cfg lap = .ok (.fin (1 / (p * 60 / METERS2MILES))) := by
  unfold speedE
  rw [treadmillActive_some cfg p hc hp, if_neg (by decide)]
  rw [show treadmillPace cfg = p by unfold treadmillPace; rw [hc]; rfl]
  exact min_miles2meter_sec_ok p hp

theorem speed1E_tread (cfg : Config) (lap : Lap) (p : ℚ)
    (hc : cfg.treadmill = some p) (hp : p ≠ 0) :
    speed1E cfg lap = .ok (.fin (1 / (p * 60 / METERS2MILES))) := by
  unfold speed1E
  rw [treadmillActive_some cfg p hc hp, if_neg (by decide)]
  rw [show treadmillPace cfg = p by unfold treadmillPace; rw [hc]; rfl]
  exact min_miles2meter_sec_ok p hp

theorem speed2E_tread (cfg : Config) (lap : Lap) (p : ℚ)
    (hc : cfg.treadmill = some p) (hp : p ≠ 0) :
    speed2E cfg lap = .ok (.fin (1 / (p * 60 / METERS2MILES))) := by
  unfold speed2E
  rw [treadmillActive_some cfg p hc hp, if_neg (by decide)]
  rw [show treadmillPace cfg = p by unfold treadmillPace; rw [hc]; rfl]
  exact min_miles2meter_sec_ok p hp

theorem speedE_off (cfg : Config) (lap : Lap) (hc : cfg.treadmill = none) :
    speedE cfg lap =
      .ok (npDiv (.fin (totalDistanceOf lap)) (.fin (lap.totalTimeSeconds : ℚ))) := by
  unfold speedE
  rw [treadmillActive_none cfg hc, if_pos rfl]

theorem speed1E_off (cfg : Config) (lap : Lap) (hc : cfg.treadmill = none) :
    speed1E cfg lap =
      .ok (npDiv (.fin (dist1Of lap)) (.fin ((lap.totalTimeSeconds : ℚ) / 2))) := by
  unfold speed1E
  rw [treadmillActive_none cfg hc, if_pos rfl]

theorem speed2E_off (cfg : Config) (lap : Lap) (hc : cfg.treadmill = none) :
    speed2E cfg lap =
      .ok (npDiv (.fin (dist2Of lap)) (.fin ((lap.totalTimeSeconds : ℚ) / 2))) := by
  unfold speed2E
  rw [treadmillActive_none cfg hc, if_pos rfl]

/-- C4: with the treadmill option active at a nonzero pace p, the
whole-lap, first-half and second-half speeds of a processed lap - one
with samples and a time-sorted index, which the source needs to get past
truncate - all equal the constant 1 / (p * 60 / METERS2MILES),
independent of the measured distances and times; with the option absent,
the whole-lap speed is the measured total distance over the declared
total time in seconds. -/
theorem c4_treadmill_constant_speed :
    (∀ (cfg : Config) (lap : Lap) (p : ℚ), cfg.treadmill = some p → p ≠ 0 →
        lap.samples ≠ [] → sortedSamples lap.samples = true →
        ((buildRow cfg lap).1).speed = some (.fin (1 / (p * 60 / METERS2MILES)))
        ∧ ((buildRow cfg lap).1).speed1 = some (.fin (1 / (p * 60 / METERS2MILES)))
        ∧ ((buildRow cfg lap).1).speed2 = some (.fin (1 / (p * 60 / METERS2MILES))))
    ∧ (∀ (cfg : Config) (lap : Lap), cfg.treadmill = none →
        lap.samples ≠ [] → (lap.totalTimeSeconds : ℚ) ≠ 0 →
        ((buildRow cfg lap).1).speed =
          some (.fin (totalDistanceOf lap / (lap.totalTimeSeconds : ℚ)))) := by
  constructor
  · intro cfg lap p hc hp hne hsort
    obtain ⟨⟨bt, et, du⟩, hv⟩ := get_lap_ok_of_ne_nil cfg lap hne
    simp only [buildRow, hv, speedE_tread cfg lap p hc hp, paceStringE_fin,
      hsort, speed1E_tread cfg lap p hc hp, speed2E_tread cfg lap p hc hp]
    refine ⟨?_, ?_, ?_⟩ <;> first | rfl | trivial
  · intro cfg lap hc hne hT
    obtain ⟨⟨bt, et, du⟩, hv⟩ := get_lap_ok_of_ne_nil cfg lap hne
    have h1 := npDiv_fin_fin (totalDistanceOf lap) ((lap.totalTimeSeconds : ℚ)) hT
    simp only [buildRow, hv, speedE_off cfg lap hc, h1, paceStringE_fin]
    repeat' split
    all_goals rfl

/-- Witness for C4: the treadmill part at pace 12 on lapGood, and the
measured part on the same lap without the option. -/
theorem c4_witness :
    (cfgTread12.treadmill = some 12 ∧ (12 : ℚ) ≠ 0 ∧ lapGood.samples ≠ []
      ∧ sortedSamples lapGood.samples = true
      ∧ ((buildRow cfgTread12 lapGood).1).speed =
          some (.fin (1 / (12 * 60 / METERS2MILES)))
      ∧ ((buildRow cfgTread12 lapGood).1).speed1 =
          some (.fin (1 / (12 * 60 / METERS2MILES)))
      ∧ ((buildRow cfgTread12 lapGood).1).speed2 =
          some (.fin (1 / (12 * 60 / METERS2MILES))))
    ∧ (cfgBase.treadmill = none ∧ lapGood.samples ≠ []
      ∧ (lapGood.totalTimeSeconds : ℚ) ≠ 0
      ∧ ((buildRow cfgBase lapGood).1).speed =
          some (.fin (totalDistanceOf lapGood / (lapGood.totalTimeSeconds : ℚ)))) := by
  have hsort : sortedSamples lapGood.samples = true := by with_unfolding_all rfl
  have hT : (lapGood.totalTimeSeconds : ℚ) ≠ 0 := by norm_num [lapGood]
  have h1 := c4_treadmill_constant_speed.1 cfgTread12 lapGood 12 rfl (by norm_num)
    (by simp [lapGood]) hsort
  have h2 := c4_treadmill_constant_speed.2 cfgBase lapGood rfl (by simp [lapGood]) hT
  exact ⟨⟨rfl, by norm_num, by simp [lapGood], hsort, h1.1, h1.2.1, h1.2.2⟩,
    ⟨rfl, by simp [lapGood], hT, h2⟩⟩

/-- C10 counterexample: two runs identical except for the treadmill
setting disagree on the heart-rate-only outputs. On the zero-total-time
lap the treadmill-free run computes a nan first-half speed, whose pace
formatting raises an uncaught ValueError before the first-half average
BPM is assigned - the whole run aborts with no report at all - while the
treadmill run completes with first-half average BPM 100. -/
theorem c10_counterexample_interference :
    parse_laps cfgBase [lapZeroTime] = .error PyErr.valueError
    ∧ parse_laps cfgTread12 [lapZeroTime] =
        .ok ([(buildRow cfgTread12 lapZeroTime).1], [])
    ∧ ((buildRow cfgBase lapZeroTime).1).avgBpm1 = none
    ∧ ((buildRow cfgTread12 lapZeroTime).1).avgBpm1 = some (NpF.fin 100)
    ∧ cfgTread12 = { cfgBase with treadmill := some 12 } := by
  refine ⟨?_, ?_, ?_, ?_, rfl⟩ <;> with_unfolding_all rfl

/-- C10 amended: when the declared total time is nonzero - so that no
nan pace value can abort the treadmill-free run at a point the treadmill
run passes - the treadmill setting does not interfere with any of the
four heart-rate-only outputs: whole-lap, first-half and second-half
average BPM and the BPM-only drift agree between a run without the
option and a run with any pace p, for every lap. -/
theorem c10_amended_bpm_fields (cfg : Config) (lap : Lap) (p : ℚ)
    (hT : (lap.totalTimeSeconds : ℚ) ≠ 0) :
    ((buildRow { cfg with treadmill := none } lap).1).avgBpm =
        ((buildRow { cfg with treadmill := some p } lap).1).avgBpm
    ∧ ((buildRow { cfg with treadmill := none } lap).1).avgBpm1 =
        ((buildRow { cfg with treadmill := some p } lap).1).avgBpm1
    ∧ ((buildRow { cfg with treadmill := none } lap).1).avgBpm2 =
        ((buildRow { cfg with treadmill := some p } lap).1).avgBpm2
    ∧ ((buildRow { cfg with treadmill := none } lap).1).bpmDrift =
        ((buildRow { cfg with treadmill := some p } lap).1).bpmDrift := by
  have hT2 : (lap.totalTimeSeconds : ℚ) / 2 ≠ 0 := div_ne_zero hT two_ne_zero
  by_cases hp : p = 0
  · subst hp
    have hb : buildRow { cfg with treadmill := some 0 } lap =
        buildRow { cfg with treadmill := none } lap := rfl
    rw [hb]
    exact ⟨rfl, rfl, rfl, rfl⟩
  · cases hsamp : lap.samples with
    | nil =>
      have hgOff : get_lap_times_and_duration { cfg with treadmill := none } lap =
          .error .indexError := by
        unfold get_lap_times_and_duration
        rw [hsamp]
      have hgOn : get_lap_times_and_duration { cfg with treadmill := some p } lap =
          .error .indexError := hgOff
      simp only [buildRow, hgOff, hgOn]
      refine ⟨?_, ?_, ?_, ?_⟩ <;> first | rfl | trivial
    | cons a t =>
      have hne : lap.samples ≠ [] := by rw [hsamp]; simp
      obtain ⟨⟨bt, et, du⟩, hv⟩ :=
        get_lap_ok_of_ne_nil { cfg with treadmill := none } lap hne
      have hvOn : get_lap_times_and_duration { cfg with treadmill := some p } lap =
          .ok (bt, et, du) := hv
      have hspOff := speedE_off { cfg with treadmill := none } lap rfl
      have hspOn := speedE_tread { cfg with treadmill := some p } lap p rfl hp
      have hD := npDiv_fin_fin (totalDistanceOf lap) ((lap.totalTimeSeconds : ℚ)) hT
      cases hs : sortedSamples lap.samples with
      | false =>
        simp only [buildRow, hv, hvOn, hspOff, hspOn, hD, paceStringE_fin, hs]
        refine ⟨?_, ?_, ?_, ?_⟩ <;> first | rfl | trivial
      | true =>
        have hsp1Off := speed1E_off { cfg with treadmill := none } lap rfl
        have hsp2Off := speed2E_off { cfg with treadmill := none } lap rfl
        have hsp1On := speed1E_tread { cfg with treadmill := some p } lap p rfl hp
        have hsp2On := speed2E_tread { cfg with treadmill := some p } lap p rfl hp
        have hD1 := npDiv_fin_fin (dist1Of lap) ((lap.totalTimeSeconds : ℚ) / 2) hT2
        have hD2 := npDiv_fin_fin (dist2Of lap) ((lap.totalTimeSeconds : ℚ) / 2) hT2
        simp only [buildRow, hv, hvOn, hspOff, hspOn, hD, paceStringE_fin, hs,
          hsp1Off, hsp1On, hD1, hsp2Off, hsp2On, hD2]
        refine ⟨?_, ?_, ?_, ?_⟩ <;> first | rfl | trivial

/-- Witness for C10 amended on a lap with nonzero declared total time:
the first-half average BPM agrees between the two runs. -/
theorem c10_amended_witness :
    (lapGood.totalTimeSeconds : ℚ) ≠ 0
    ∧ ((buildRow { cfgBase with treadmill := none } lapGood).1).avgBpm1 =
        ((buildRow { cfgBase with treadmill := some 12 } lapGood).1).avgBpm1 := by
  have hT : (lapGood.totalTimeSeconds : ℚ) ≠ 0 := by norm_num [lapGood]
  exact ⟨hT, (c10_amended_bpm_fields cfgBase lapGood 12 hT).2.1⟩
